import Mathlib

/-!
Verification of the Tribler tunnel community and EVA transfer layer.

This file gives a shallow embedding, in Lean 4, of the pure decision logic of
`tribler/core/tunnel/community.py` (class TriblerTunnelCommunity) and of the
EVA incoming-transfer acknowledgement step, together with theorems checking
the specification's statements against these embeddings.

Bytes are modelled as natural numbers below 256, byte strings as lists of
naturals, Python dicts as association lists, and Python wall-clock time as a
rational number.  Fallible code is modelled with Except.
-/

/-! ## Download status

Mirror of DownloadStatus (tribler/core/libtorrent/download_manager/download_state.py):
the libtorrent-facing status enumeration used by the tunnel community. -/

inductive DownloadStatus where
  | allocating_diskspace
  | waiting_for_hashcheck
  | hashchecking
  | downloading
  | seeding
  | stopped
  | stopped_on_error
  | metadata
  | loading
deriving DecidableEq, Fintype, Repr

/-! ## C1: should_join_circuit (community.py lines 133-141)

The tunnel-community state relevant to join-circuit admission: the three
registries keyed by circuit id.  should_join_circuit only reads the sizes of
relay_from_to and exit_sockets and returns a (future firing with a) boolean,
leaving the state untouched. -/

structure TunnelState where
  circuits : List Nat
  relay_from_to : List Nat
  exit_sockets : List Nat
deriving DecidableEq, Repr

def should_join_circuit (max_joined_circuits : Nat) (s : TunnelState) : Bool × TunnelState :=
  let joined_circuits := s.relay_from_to.length + s.exit_sockets.length
  if max_joined_circuits ≤ joined_circuits then
    (false, s)
  else
    (true, s)

/-! ## C3: monitor_hidden_swarms join/leave decision (community.py lines 267-281)

Per info_hash, the swarm action taken by monitor_hidden_swarms given the old
and the new download state (None when the info_hash is absent from the map). -/

inductive SwarmAction where
  | join (seeding : Bool)
  | leave
  | keep
deriving DecidableEq, Repr

def SwarmAction.isJoin : SwarmAction → Bool
  | .join _ => true
  | _ => false

def monitor_hidden_swarms_action (old_state new_state : Option DownloadStatus) : SwarmAction :=
  let state_changed := new_state ≠ old_state
  if state_changed ∧ (new_state = some .downloading ∨ new_state = some .seeding ∨
      new_state = some .metadata) then
    if old_state ≠ some .metadata ∨ new_state ≠ some .downloading then
      .join (new_state = some .seeding)
    else
      .keep
  else if state_changed ∧ (new_state = some .stopped ∨ new_state = none) then
    .leave
  else
    .keep

/-! ## C5: the per-circuit HTTP request gate of on_http_request (community.py lines 353-356)

The handler counts the HTTPRequestCache entries of the request cache that
carry the cell's circuit id and drops the request when that count exceeds 5. -/

inductive CacheKind where
  | httpRequestCache
  | otherCache
deriving DecidableEq, Repr

def outstanding_http_requests (entries : List (CacheKind × Nat)) (circuit_id : Nat) : Nat :=
  (entries.filter fun e =>
    (match e.1 with | .httpRequestCache => true | .otherCache => false) && e.2 == circuit_id).length

def on_http_request_drops (entries : List (CacheKind × Nat)) (circuit_id : Nat) : Bool :=
  decide (outstanding_http_requests entries circuit_id > 5)

/-! ## C10: get_available_strategies (community.py lines 98-99)

Python dict.update mutates the receiver and returns None; the method returns
that None.  dict_update returns both the mutated dict and the Python return
value, and get_available_strategies returns only the latter, as the source
does. -/

inductive Strategy where
  | goldenRatio
  | external (tag : Nat)
deriving DecidableEq, Repr

def dictInsert (d : List (String × Strategy)) (k : String) (v : Strategy) :
    List (String × Strategy) :=
  if d.any (fun p => p.1 == k) then
    d.map (fun p => if p.1 == k then (k, v) else p)
  else
    d ++ [(k, v)]

def dict_update (d e : List (String × Strategy)) :
    List (String × Strategy) × Option (List (String × Strategy)) :=
  (e.foldl (fun acc p => dictInsert acc p.1 p.2) d, none)

def get_available_strategies (superStrategies : List (String × Strategy)) :
    Option (List (String × Strategy)) :=
  (dict_update superStrategies [(("GoldenRatioStrategy"), Strategy.goldenRatio)]).2

/-! ## C4/C6: the HTTP exit path of on_http_request (community.py lines 384-395)

Byte strings are lists of naturals; asciiBytes gives the bytes of an ASCII
string literal. -/

def asciiBytes (s : String) : List Nat := s.data.map Char.toNat

def MAX_HTTP_PACKET_SIZE : Nat := 1400

/-- The cells sent by on_http_request for a fetched response: num_cells is the
ceiling of len(response) / MAX_HTTP_PACKET_SIZE (math.ceil on an exact float
quotient, here ceiling division on naturals), and cell i carries
(part := i, total := num_cells, response[i*M : (i+1)*M]). -/
def http_fragments (response : List Nat) : List (Nat × Nat × List Nat) :=
  let num_cells := (response.length + (MAX_HTTP_PACKET_SIZE - 1)) / MAX_HTTP_PACKET_SIZE
  (List.range num_cells).map fun i =>
    (i, num_cells, (response.drop (i * MAX_HTTP_PACKET_SIZE)).take MAX_HTTP_PACKET_SIZE)

/-- response.startswith(b'HTTP/1.1 307') -/
def HTTP_307_STATUS : List Nat := asciiBytes ("HTTP/1.1 307")

/-- b'\r\n\r\n', the header/body separator used by bytes.partition. -/
def CRLFCRLF : List Nat := [13, 10, 13, 10]

/-- The third component of Python bytes.partition(sep): the bytes after the
first occurrence of sep, or the empty string when sep does not occur. -/
def partition_after (sep : List Nat) : List Nat → List Nat
  | [] => []
  | x :: xs => if sep.isPrefixOf (x :: xs) then (x :: xs).drop sep.length
               else partition_after sep xs

/-- The forwarding decision of on_http_request once a response has been read:
pass 307 responses through, otherwise require the body after the first blank
line to be bencoded (is_bencoded is the opaque libtorrent bdecode test, taken
as an oracle isB); a refused response sends nothing (none), an admitted one
sends exactly the fragments of http_fragments. -/
def on_http_request_forward (isB : List Nat → Bool) (response : List Nat) :
    Option (List (Nat × Nat × List Nat)) :=
  if !(HTTP_307_STATUS.isPrefixOf response) then
    let bencoded_data := partition_after CRLFCRLF response
    if !(isB bencoded_data) then
      none
    else
      some (http_fragments response)
  else
    some (http_fragments response)

/-! ## C2: get_lookup_info_hash (community.py lines 345-346)

A full SHA1 (FIPS 180-1) over byte lists, with 32-bit words as naturals and
the bitwise operations written with explicit fuel so that they evaluate by
kernel reduction; hexlify is binascii.hexlify (lowercase hex digits). -/

def rotl32 (n x : Nat) : Nat := x % 2 ^ (32 - n) * 2 ^ n + x / 2 ^ (32 - n)

def xorBits : Nat → Nat → Nat → Nat
  | 0, _, _ => 0
  | k + 1, a, b => (if a % 2 + b % 2 = 1 then 1 else 0) + 2 * xorBits k (a / 2) (b / 2)

def xor32 (a b : Nat) : Nat := xorBits 32 a b

def andBits : Nat → Nat → Nat → Nat
  | 0, _, _ => 0
  | k + 1, a, b => (if a % 2 + b % 2 = 2 then 1 else 0) + 2 * andBits k (a / 2) (b / 2)

def and32 (a b : Nat) : Nat := andBits 32 a b

def orBits : Nat → Nat → Nat → Nat
  | 0, _, _ => 0
  | k + 1, a, b => (if 1 ≤ a % 2 + b % 2 then 1 else 0) + 2 * orBits k (a / 2) (b / 2)

def or32 (a b : Nat) : Nat := orBits 32 a b

def not32 (x : Nat) : Nat := 4294967295 - x

def sha1_f (i b c d : Nat) : Nat :=
  if i < 20 then or32 (and32 b c) (and32 (not32 b) d)
  else if i < 40 then xor32 (xor32 b c) d
  else if i < 60 then or32 (or32 (and32 b c) (and32 b d)) (and32 c d)
  else xor32 (xor32 b c) d

def sha1_k (i : Nat) : Nat :=
  if i < 20 then 0x5A827999
  else if i < 40 then 0x6ED9EBA1
  else if i < 60 then 0x8F1BBCDC
  else 0xCA62C1D6

def sha1_rounds : List Nat → Nat → Nat × Nat × Nat × Nat × Nat → Nat × Nat × Nat × Nat × Nat
  | [], _, st => st
  | w :: ws, i, (a, b, c, d, e) =>
    sha1_rounds ws (i + 1)
      ((rotl32 5 a + sha1_f i b c d + e + sha1_k i + w) % 4294967296, a, rotl32 30 b, c, d)

def toBytesBE : Nat → Nat → List Nat
  | 0, _ => []
  | k + 1, n => toBytesBE k (n / 256) ++ [n % 256]

def bytesToWordsBE : List Nat → List Nat
  | a :: b :: c :: d :: rest => (((a * 256 + b) * 256 + c) * 256 + d) :: bytesToWordsBE rest
  | _ => []

def sha1_extend (w : List Nat) : List Nat :=
  w ++ [rotl32 1 (xor32 (xor32 (w.getD (w.length - 3) 0) (w.getD (w.length - 8) 0))
                 (xor32 (w.getD (w.length - 14) 0) (w.getD (w.length - 16) 0)))]

def iterateN {α : Type} (f : α → α) : Nat → α → α
  | 0, x => x
  | k + 1, x => iterateN f k (f x)

def sha1_schedule (chunk : List Nat) : List Nat :=
  iterateN sha1_extend 64 (bytesToWordsBE chunk)

def chunksOf64 : Nat → List Nat → List (List Nat)
  | 0, _ => []
  | _, [] => []
  | fuel + 1, l => l.take 64 :: chunksOf64 fuel (l.drop 64)

def sha1_pad (msg : List Nat) : List Nat :=
  msg ++ [128] ++ List.replicate ((55 + 64 - msg.length % 64) % 64) 0 ++
    toBytesBE 8 (msg.length * 8)

def sha1_compress (st : Nat × Nat × Nat × Nat × Nat) (chunk : List Nat) :
    Nat × Nat × Nat × Nat × Nat :=
  match st with
  | (h0, h1, h2, h3, h4) =>
    match sha1_rounds (sha1_schedule chunk) 0 (h0, h1, h2, h3, h4) with
    | (a, b, c, d, e) =>
      ((h0 + a) % 4294967296, (h1 + b) % 4294967296, (h2 + c) % 4294967296,
       (h3 + d) % 4294967296, (h4 + e) % 4294967296)

def sha1 (msg : List Nat) : List Nat :=
  let padded := sha1_pad msg
  match (chunksOf64 padded.length padded).foldl sha1_compress
      (0x67452301, 0xEFCDAB89, 0x98BADCFE, 0x10325476, 0xC3D2E1F0) with
  | (h0, h1, h2, h3, h4) =>
    toBytesBE 4 h0 ++ toBytesBE 4 h1 ++ toBytesBE 4 h2 ++ toBytesBE 4 h3 ++ toBytesBE 4 h4

/-- binascii.hexlify of a single hex digit: the ASCII code of 0-9a-f. -/
def hexChar (n : Nat) : Nat := if n < 10 then 48 + n else 87 + n

def hexlify : List Nat → List Nat
  | [] => []
  | b :: rest => hexChar (b / 16) :: hexChar (b % 16) :: hexlify rest

def get_lookup_info_hash (info_hash : List Nat) : List Nat :=
  sha1 (asciiBytes ("tribler anonymous download") ++ hexlify info_hash)

/-! ## C7: the forced-DHT-announce throttle of monitor_downloads (community.py lines 249-256)

Wall-clock time (time.time()) is modelled as a rational number. -/

/-- One monitor_downloads tick for a fixed real infohash: `last` is
last_forced_announce.get(real_info_hash, 0), `conds` the conjunction of the
remaining guards (ready circuits for the hop count, empty peer list, live
session), `t` the time.time() value read in the guard and `t2` the time.time()
value recorded into last_forced_announce after force_dht_announce (t ≤ t2).
Returns whether force_dht_announce fired and the updated recorded value. -/
def forced_announce_step (last : ℚ) (conds : Bool) (t t2 : ℚ) : Bool × ℚ :=
  if last + 60 ≤ t ∧ conds = true then (true, t2) else (false, last)

/-- The time.time() values at which force_dht_announce fires along a run of
monitor_downloads ticks, each tick given as (other-guards, guard time, record
time). -/
def forced_announce_times : ℚ → List (Bool × ℚ × ℚ) → List ℚ
  | _, [] => []
  | last, (conds, t, t2) :: rest =>
    match forced_announce_step last conds t t2 with
    | (true, last2) => t :: forced_announce_times last2 rest
    | (false, last2) => forced_announce_times last2 rest

/-- Monotonicity of the wall clock along a run: successive time.time() calls
never decrease, starting from the lower bound lo. -/
def timesOrdered : ℚ → List (Bool × ℚ × ℚ) → Prop
  | _, [] => True
  | lo, (_, t, t2) :: rest => lo ≤ t ∧ t ≤ t2 ∧ timesOrdered t2 rest

/-! ## C8: EVA IncomingTransfer.make_acknowledgement

The EVA transfer implementation
(tribler/core/components/ipv8/eva/transfer/incoming_transfer.py and
transfer_window.py) is not among the sources at hand; only its unit test
tests/test_incoming_transfer.py is.  The definitions below are therefore
modelled from the spec (sections 4.9 and 8, scenario 3) and checked against
the literal values of test_make_acknowledgement_next_window. -/

/-- Modelled from the spec: TransferWindow(start, size) of
transfer_window.py — a sliding window with `processed = 0` and `size` empty
block slots. -/
structure TransferWindow where
  start : Nat
  processed : Nat
  blocks : List (Option (List Nat))
deriving DecidableEq, Repr

def TransferWindow.create (start size : Nat) : TransferWindow :=
  ⟨start, 0, List.replicate size none⟩

structure Acknowledgement where
  number : Nat
  window_size : Nat
deriving DecidableEq, Repr

/-- The mutable state of an incoming EVA transfer touched by
make_acknowledgement: the current window (None before the first one) and the
list of flushed blocks. -/
structure IncomingTransferState where
  window : Option TransferWindow
  data_list : List (List Nat)
deriving DecidableEq, Repr

/-- The consumed prefix of a window's blocks:
takewhile(lambda x: x is not None, blocks). -/
def consumedBlocks : List (Option (List Nat)) → List (List Nat)
  | some b :: rest => b :: consumedBlocks rest
  | _ => []

/-- Modelled from the spec: IncomingTransfer.make_acknowledgement of
incoming_transfer.py.  When a window exists, flush its consumed prefix into
data_list and start a fresh window of protocol.window_size slots at the next
expected block index (the total number of flushed blocks); with no window yet,
allocate the first window at block 0.  The acknowledgement carries the new
window's start and the protocol window size. -/
def make_acknowledgement (window_size : Nat) (s : IncomingTransferState) :
    Acknowledgement × IncomingTransferState :=
  match s.window with
  | some w =>
    let data_list2 := s.data_list ++ consumedBlocks w.blocks
    let window2 := TransferWindow.create data_list2.length window_size
    (⟨window2.start, window_size⟩, ⟨some window2, data_list2⟩)
  | none =>
    let window2 := TransferWindow.create 0 window_size
    (⟨window2.start, window_size⟩, ⟨some window2, s.data_list⟩)

/-! ## C9: exit-node cache file I/O (community.py lines 101-131)

The cache file as the community can observe it: absent, readable with some
content, or present but failing with OSError on read. -/

inductive CacheFileState where
  | absent
  | readable (content : List Nat)
  | unreadable
deriving DecidableEq, Repr

/-- Path.is_file(): true when the file exists, whether or not it can be read. -/
def CacheFileState.is_file : CacheFileState → Bool
  | .absent => false
  | .readable _ => true
  | .unreadable => true

inductive RestoreOutcome where
  | loaded (snapshot : List Nat)
  | warnedMissing
deriving DecidableEq, Repr

/-- restore_exitnodes_from_disk: the is_file() guard routes an absent cache
file to a logged warning; when the file exists the open/read/load sequence has
no surrounding try block, so an OSError raised by the read propagates out of
the method (Except.error). -/
def restore_exitnodes_from_disk (f : CacheFileState) : Except String RestoreOutcome :=
  if f.is_file then
    match f with
    | .readable content => .ok (.loaded content)
    | _ => .error ("OSError")
  else
    .ok .warnedMissing

/-- Path.write_bytes: may raise OSError. -/
def write_bytes (writeSucceeds : Bool) : Except String Unit :=
  if writeSucceeds then .ok () else .error ("OSError")

/-- cache_exitnodes_to_disk wraps write_bytes in try/except OSError and logs
the failure, so it never raises. -/
def cache_exitnodes_to_disk (writeSucceeds : Bool) : Except String Unit :=
  match write_bytes writeSucceeds with
  | .ok _ => .ok ()
  | .error _ => .ok ()

/-! ## Theorems -/

lemma take_append_take_drop {α : Type} (l : List α) (m k : Nat) :
    l.take m ++ (l.drop m).take k = l.take (m + k) := by
  rw [List.take_drop]
  conv_lhs =>
    rw [show l.take m = (l.take (m + k)).take m by
      rw [List.take_take, Nat.min_eq_left (Nat.le_add_right m k)]]
  exact List.take_append_drop m (l.take (m + k))

lemma join_range_map_chunks {α : Type} (l : List α) (M : Nat) :
    ∀ n : Nat, ((List.range n).map fun i => (l.drop (i * M)).take M).flatten = l.take (n * M) := by
  intro n
  induction n with
  | zero => simp
  | succ n ih =>
    rw [List.range_succ, List.map_append, List.flatten_append, ih]
    simp only [List.map_cons, List.map_nil, List.flatten_cons, List.flatten_nil, List.append_nil]
    rw [take_append_take_drop, Nat.succ_mul]

lemma ceil_div_mul_ge (a : Nat) : a ≤ (a + 1399) / 1400 * 1400 := by
  have h1 := Nat.div_add_mod (a + 1399) 1400
  have h2 : (a + 1399) % 1400 < 1400 := Nat.mod_lt _ (by norm_num)
  omega

lemma mem_dictInsert_self (d : List (String × Strategy)) (k : String) (v : Strategy) :
    (k, v) ∈ dictInsert d k v := by
  unfold dictInsert
  by_cases h : d.any (fun p => p.1 == k) = true
  · simp only [h, if_true]
    obtain ⟨p, hp, hpk⟩ := List.any_eq_true.mp h
    exact List.mem_map.mpr ⟨p, hp, by simp [hpk]⟩
  · simp only [h]
    simp

/-- C1: should_join_circuit admits an incoming extension request iff
|relay_from_to| + |exit_sockets| < max_joined_circuits, and in both cases the
circuit, relay and exit-socket registries are left unmodified. -/
theorem should_join_circuit_budget (max_joined_circuits : Nat) (s : TunnelState) :
    ((should_join_circuit max_joined_circuits s).1 = true ↔
      s.relay_from_to.length + s.exit_sockets.length < max_joined_circuits) ∧
    (should_join_circuit max_joined_circuits s).2 = s := by
  by_cases h : max_joined_circuits ≤ s.relay_from_to.length + s.exit_sockets.length <;>
    simp [should_join_circuit, h] <;> omega

/-- C3: monitor_hidden_swarms emits join_swarm for an info_hash exactly when the
state changed, the new state is DOWNLOADING, SEEDING or METADATA, and it is not
the case that the old state was METADATA and the new one is DOWNLOADING; in
particular a METADATA to DOWNLOADING transition emits no join_swarm (and no
leave_swarm either). -/
theorem monitor_hidden_swarms_join_iff :
    (∀ old_state new_state : Option DownloadStatus,
      (monitor_hidden_swarms_action old_state new_state).isJoin = true ↔
        (new_state ≠ old_state ∧
         (new_state = some .downloading ∨ new_state = some .seeding ∨
          new_state = some .metadata) ∧
         ¬(old_state = some .metadata ∧ new_state = some .downloading))) ∧
    monitor_hidden_swarms_action (some .metadata) (some .downloading) = SwarmAction.keep := by
  constructor
  · decide
  · decide

/-- C10: get_available_strategies returns None for every input, because it
returns the result of dict.update rather than the merged dictionary — even
though the merged dictionary does contain the GoldenRatioStrategy entry. -/
theorem get_available_strategies_returns_none
    (superStrategies : List (String × Strategy)) :
    get_available_strategies superStrategies = none ∧
    (("GoldenRatioStrategy"), Strategy.goldenRatio) ∈
      (dict_update superStrategies
        [(("GoldenRatioStrategy"), Strategy.goldenRatio)]).1 := by
  refine ⟨rfl, ?_⟩
  simpa [dict_update] using
    mem_dictInsert_self superStrategies ("GoldenRatioStrategy") Strategy.goldenRatio

lemma http_fragments_join (response : List Nat) :
    ((http_fragments response).map (fun f => f.2.2)).flatten = response := by
  unfold http_fragments MAX_HTTP_PACKET_SIZE
  simp only [List.map_map, Function.comp_def]
  rw [join_range_map_chunks]
  exact List.take_of_length_le (ceil_div_mul_ge response.length)

/-- C4: on_http_request fragments a response into exactly
ceil(len/MAX_HTTP_PACKET_SIZE) cells tagged (part = i, total = num_cells) for
i = 0..num_cells-1, each cell at most 1400 bytes, whose concatenation in part
order is the original response; a 3000-byte response yields exactly the three
cells (0,3), (1,3), (2,3). -/
theorem on_http_request_fragmentation (response : List Nat) :
    (http_fragments response).length = (response.length + 1399) / 1400 ∧
    (http_fragments response).map (fun f => f.1) =
      List.range ((response.length + 1399) / 1400) ∧
    ((http_fragments response).all fun f =>
      (f.2.1 == (response.length + 1399) / 1400) && decide (f.2.2.length ≤ 1400)) = true ∧
    ((http_fragments response).map (fun f => f.2.2)).flatten = response ∧
    ((http_fragments (List.replicate 3000 0)).map fun f => (f.1, f.2.1)) =
      [(0, 3), (1, 3), (2, 3)] := by
  refine ⟨?_, ?_, ?_, http_fragments_join response, ?_⟩
  · simp [http_fragments, MAX_HTTP_PACKET_SIZE]
  · simp [http_fragments, MAX_HTTP_PACKET_SIZE, List.map_map, Function.comp_def]
  · rw [List.all_eq_true]
    intro f hf
    unfold http_fragments MAX_HTTP_PACKET_SIZE at hf
    obtain ⟨i, hi, rfl⟩ := List.mem_map.mp hf
    simp [List.length_take]
  · have h : (http_fragments (List.replicate 3000 (0 : Nat))).map (fun f => (f.1, f.2.1)) =
        (List.range 3).map fun i => (i, 3) := by
      unfold http_fragments MAX_HTTP_PACKET_SIZE
      simp only [List.map_map, Function.comp_def, List.length_replicate]
    rw [h]
    decide

/-- C6: on_http_request forwards a response whose status line starts with
"HTTP/1.1 307" unmodified (its fragments reassemble to the original bytes);
for any other response the body after the first blank line must pass the
bencode check, and a failing response is refused: nothing is sent back. -/
theorem on_http_request_forward_policy (isB : List Nat → Bool) (response : List Nat) :
    (HTTP_307_STATUS.isPrefixOf response = true →
      on_http_request_forward isB response = some (http_fragments response)) ∧
    (HTTP_307_STATUS.isPrefixOf response = false →
      isB (partition_after CRLFCRLF response) = false →
      on_http_request_forward isB response = none) ∧
    (∀ frags, on_http_request_forward isB response = some frags →
      (frags.map (fun f => f.2.2)).flatten = response) := by
  refine ⟨?_, ?_, ?_⟩
  · intro h
    simp [on_http_request_forward, h]
  · intro h h2
    simp [on_http_request_forward, h, h2]
  · intro frags h
    have hf : frags = http_fragments response := by
      by_cases h1 : HTTP_307_STATUS.isPrefixOf response <;>
        by_cases h2 : isB (partition_after CRLFCRLF response) = true <;>
        simp [on_http_request_forward, h1, h2] at h <;>
        exact h.symm
    rw [hf]
    exact http_fragments_join response

/-- Witness for C6: a 307 response is forwarded as its fragments (which
reassemble to the original bytes), and a non-307 response rejected by the
bencode oracle is refused. -/
theorem on_http_request_forward_policy_witness :
    HTTP_307_STATUS.isPrefixOf (asciiBytes ("HTTP/1.1 307 Temporary Redirect")) = true ∧
    on_http_request_forward (fun _ => false) (asciiBytes ("HTTP/1.1 307 Temporary Redirect")) =
      some (http_fragments (asciiBytes ("HTTP/1.1 307 Temporary Redirect"))) ∧
    HTTP_307_STATUS.isPrefixOf (asciiBytes ("HTTP/1.1 200 OK")) = false ∧
    on_http_request_forward (fun _ => false) (asciiBytes ("HTTP/1.1 200 OK")) = none ∧
    ((http_fragments (asciiBytes ("HTTP/1.1 307 Temporary Redirect"))).map
      (fun f => f.2.2)).flatten = asciiBytes ("HTTP/1.1 307 Temporary Redirect") := by
  refine ⟨by decide,
    (on_http_request_forward_policy (fun _ => false)
      (asciiBytes ("HTTP/1.1 307 Temporary Redirect"))).1 (by decide),
    by decide,
    (on_http_request_forward_policy (fun _ => false)
      (asciiBytes ("HTTP/1.1 200 OK"))).2.1 (by decide) rfl,
    (on_http_request_forward_policy (fun _ => false)
      (asciiBytes ("HTTP/1.1 307 Temporary Redirect"))).2.2 _
      ((on_http_request_forward_policy (fun _ => false)
        (asciiBytes ("HTTP/1.1 307 Temporary Redirect"))).1 (by decide))⟩

set_option maxRecDepth 100000 in
/-- SHA1 test vector: the embedding of SHA1 used below agrees with FIPS 180-1
on the standard input "abc". -/
theorem sha1_abc_vector :
    sha1 (asciiBytes ("abc")) =
      [169, 153, 62, 54, 71, 6, 129, 106, 186, 62, 37, 113, 120, 80, 194, 108,
       156, 208, 216, 157] := by
  decide

/-- hexlify test: binascii.hexlify(bytes([1, 2, 0xab, 0xff])) = b"0102abff". -/
theorem hexlify_vector :
    hexlify [1, 2, 171, 255] = asciiBytes ("0102abff") := by
  decide

set_option maxRecDepth 100000 in
/-- Full pipeline vector, cross-checked against
hashlib.sha1(b"tribler anonymous download" + hexlify(bytes([1,2,0xab,0xff]))). -/
theorem get_lookup_info_hash_vector :
    get_lookup_info_hash [1, 2, 171, 255] =
      [149, 52, 99, 226, 68, 136, 240, 173, 208, 35, 102, 132, 20, 175, 62, 59,
       2, 190, 148, 141] := by
  decide

/-- C2: get_lookup_info_hash of an infohash is the SHA1 digest of the byte
string "tribler anonymous download" (spelled out below as ASCII codes, with no
separator) followed by the hexadecimal encoding of the infohash. -/
theorem get_lookup_info_hash_spec (info_hash : List Nat) :
    get_lookup_info_hash info_hash =
      sha1 ([116, 114, 105, 98, 108, 101, 114, 32, 97, 110, 111, 110, 121, 109,
             111, 117, 115, 32, 100, 111, 119, 110, 108, 111, 97, 100] ++
            hexlify info_hash) := by
  have h : asciiBytes ("tribler anonymous download") =
      [116, 114, 105, 98, 108, 101, 114, 32, 97, 110, 111, 110, 121, 109,
       111, 117, 115, 32, 100, 111, 119, 110, 108, 111, 97, 100] := by decide
  unfold get_lookup_info_hash
  rw [h]

/-- Counterexample to C5: a request arriving on a circuit that already has
exactly 5 outstanding HTTPRequestCache entries is NOT dropped (the code drops
only when the count exceeds 5), so the handler does not refuse at 5 as the
claim states. -/
theorem on_http_request_cap_counterexample :
    outstanding_http_requests (List.replicate 5 (CacheKind.httpRequestCache, 7)) 7 = 5 ∧
    on_http_request_drops (List.replicate 5 (CacheKind.httpRequestCache, 7)) 7 = false := by
  decide

/-- C5 (amended): on_http_request drops an incoming request exactly when its
circuit already has strictly more than 5 outstanding HTTPRequestCache entries;
with 6 outstanding the request is refused, with 5 it is still processed. -/
theorem on_http_request_cap_amended (entries : List (CacheKind × Nat)) (circuit_id : Nat) :
    (on_http_request_drops entries circuit_id = true ↔
      5 < outstanding_http_requests entries circuit_id) ∧
    on_http_request_drops (List.replicate 6 (CacheKind.httpRequestCache, 9)) 9 = true := by
  constructor
  · simp [on_http_request_drops]
  · decide

lemma forced_announce_times_ge (events : List (Bool × ℚ × ℚ)) :
    ∀ lo last : ℚ, timesOrdered lo events →
      ∀ x ∈ forced_announce_times last events, last + 60 ≤ x := by
  induction events with
  | nil =>
    intro lo last h x hx
    simp [forced_announce_times] at hx
  | cons head rest ih =>
    obtain ⟨conds, t, t2⟩ := head
    intro lo last h x hx
    obtain ⟨h1, h2, h3⟩ := h
    by_cases hg : last + 60 ≤ t ∧ conds = true
    · simp only [forced_announce_times, forced_announce_step, if_pos hg] at hx
      rcases List.mem_cons.mp hx with rfl | hx2
      · exact hg.1
      · have h4 := ih t2 t2 h3 x hx2
        linarith [hg.1, h2]
    · simp only [forced_announce_times, forced_announce_step, if_neg hg] at hx
      exact ih t2 last h3 x hx

lemma forced_announce_times_pairwise (events : List (Bool × ℚ × ℚ)) :
    ∀ lo last : ℚ, timesOrdered lo events →
      (forced_announce_times last events).Pairwise (fun a b => a + 60 ≤ b) := by
  induction events with
  | nil =>
    intro lo last h
    simp [forced_announce_times]
  | cons head rest ih =>
    obtain ⟨conds, t, t2⟩ := head
    intro lo last h
    obtain ⟨h1, h2, h3⟩ := h
    by_cases hg : last + 60 ≤ t ∧ conds = true
    · simp only [forced_announce_times, forced_announce_step, if_pos hg]
      refine List.Pairwise.cons ?_ (ih t2 t2 h3)
      intro y hy
      have h4 := forced_announce_times_ge rest t2 t2 h3 y hy
      linarith
    · simp only [forced_announce_times, forced_announce_step, if_neg hg]
      exact ih t2 last h3

/-- C7: along any run of monitor_downloads ticks with a monotone wall clock,
the forced DHT announces for a fixed real infohash happen at times pairwise at
least 60 seconds apart; in particular no announce fires within 60 seconds of
the previously recorded one. -/
theorem monitor_downloads_announce_throttle (events : List (Bool × ℚ × ℚ)) (lo last : ℚ)
    (h : timesOrdered lo events) :
    (forced_announce_times last events).Pairwise (fun a b => a + 60 ≤ b) :=
  forced_announce_times_pairwise events lo last h

/-- Witness for C7: a concrete monotone run in which ticks at times 100, 162,
300 (guards false) and 301 fire announces at 100, 162 and 301 only. -/
theorem monitor_downloads_announce_throttle_witness :
    timesOrdered 0 [(true, 100, 101), (true, 162, 163), (false, 300, 300), (true, 301, 302)] ∧
    forced_announce_times 0
        [(true, 100, 101), (true, 162, 163), (false, 300, 300), (true, 301, 302)] =
      [100, 162, 301] ∧
    List.Pairwise (fun a b : ℚ => a + 60 ≤ b)
      (forced_announce_times 0
        [(true, 100, 101), (true, 162, 163), (false, 300, 300), (true, 301, 302)]) := by
  refine ⟨?_, ?_, monitor_downloads_announce_throttle _ 0 0 ?_⟩
  · simp [timesOrdered]
    norm_num
  · norm_num [forced_announce_times, forced_announce_step]
  · simp [timesOrdered]
    norm_num

/-- C8: on the incoming window TransferWindow(start := 10, size := 7) holding
blocks [b"d", b"a", b"t", b"a", None, None, None] and an empty data_list,
make_acknowledgement returns ACK(number = 4, window_size = protocol
window size), appends the 4 consumed prefix blocks to data_list and installs a
fresh window with start = 4, processed = 0 and exactly window_size empty
slots. -/
theorem make_acknowledgement_next_window (window_size : Nat) :
    make_acknowledgement window_size
        ⟨some ⟨10, 0, [some [100], some [97], some [116], some [97], none, none, none]⟩, []⟩ =
      (⟨4, window_size⟩,
       ⟨some ⟨4, 0, List.replicate window_size none⟩, [[100], [97], [116], [97]]⟩) ∧
    (List.replicate (α := Option (List Nat)) window_size none).length = window_size := by
  constructor
  · rfl
  · simp

/-- Counterexample to C9: when the cache file exists but reading it raises
OSError, restore_exitnodes_from_disk has no handler and the error propagates
out of the method, contrary to the claim that any read error during restore is
logged and non-fatal. -/
theorem restore_exitnodes_read_error_counterexample :
    restore_exitnodes_from_disk CacheFileState.unreadable = Except.error ("OSError") := by
  rfl

/-- C9 (amended): an absent snapshot file is handled inside
restore_exitnodes_from_disk with a warning and the node continues with an
empty exit-node set; any write error during cache_exitnodes_to_disk on unload
is caught and logged; but a read error on an existing file propagates out of
restore_exitnodes_from_disk uncaught. -/
theorem exitnode_cache_io_amended :
    restore_exitnodes_from_disk CacheFileState.absent =
      Except.ok RestoreOutcome.warnedMissing ∧
    (∀ writeSucceeds, cache_exitnodes_to_disk writeSucceeds = Except.ok ()) ∧
    (∀ content, restore_exitnodes_from_disk (CacheFileState.readable content) =
      Except.ok (RestoreOutcome.loaded content)) ∧
    restore_exitnodes_from_disk CacheFileState.unreadable = Except.error ("OSError") := by
  refine ⟨rfl, ?_, fun content => rfl, rfl⟩
  intro writeSucceeds
  cases writeSucceeds <;> rfl

